import Mathlib

/-!
Shallow embedding of the riscvemu core (src/src/lib/Machine.cpp,
src/include/Machine.h, src/include/Instructions.h, src/include/CSR.h,
src/include/Decoder.h).  Machine words (`uint64_t`) are modelled as `Nat`
with explicit reduction modulo `2 ^ 64` wherever the C++ arithmetic wraps;
signed views (`int64_t`) are modelled as `Int`.  Fallible operations
(memory access, instruction dispatch) return `Except Fault _`; a returned
`.error` models a thrown C++ exception that unwinds out of the execute
step before any further mutation.
-/

namespace Riscvemu

/-- `MemoryMaxSize` from Machine.h: `1024 * 1024 * 1`. -/
def MemoryMaxSize : Nat := 1024 * 1024 * 1

/-- `MemoryBaseAddr` from Machine.h: `0x80000000`. -/
def MemoryBaseAddr : Nat := 0x80000000

/-- Reduction of a signed 64-bit intermediate result back to the `uint64_t`
value it converts to in C++ (two's-complement wrap modulo `2 ^ 64`). -/
def wrap64 (i : Int) : Nat := (i % (2 ^ 64 : Int)).toNat

/-- Conversion of a signed value to `uint32_t` (wrap modulo `2 ^ 32`). -/
def wrap32 (i : Int) : Nat := (i % (2 ^ 32 : Int)).toNat

/-- The `int64_t` reinterpretation of a `uint64_t` value (a C++
`(int64_t)x` cast).  Values produced by the embedding are `< 2 ^ 64`. -/
def toSigned (x : Nat) : Int :=
  if x < 2 ^ 63 then (x : Int) else (x : Int) - 2 ^ 64

/-- Bitwise complement on `uint64_t` (C++ `~x`), for operands `< 2 ^ 64`. -/
def cNot64 (x : Nat) : Nat := x ^^^ (2 ^ 64 - 1)

/-- `signExtend` from Decoder.h:
`((int64_t)(value << (64 - bits))) >> (64 - bits)` — the shift pair keeps
the low `bits` bits and replicates their top bit, i.e. the two's-complement
value of `value mod 2 ^ bits`. -/
def signExtend (value bits : Nat) : Int :=
  let v := value % 2 ^ bits
  if v < 2 ^ (bits - 1) then (v : Int) else (v : Int) - 2 ^ bits

/-- Arithmetic (sign-preserving) right shift of an `int64_t`, i.e.
floor division by `2 ^ n` (C++ `>>` on a signed operand). -/
def sar (i : Int) (n : Nat) : Int := Int.fdiv i (2 ^ n)

/-- Pointwise update of a table modelled as a function. -/
def updNat (f : Nat → Nat) (i v : Nat) : Nat → Nat :=
  fun j => if j = i then v else f j

/-! ## Decoder (Instructions.h) -/

/-- `Rtype` of Instructions.h. -/
structure Rtype where
  Funct7 : Nat
  Rs2 : Nat
  Rs1 : Nat
  Funct3 : Nat
  Rd : Nat

/-- The `Rtype(uint32_t inst)` constructor. -/
def Rtype.decode (inst : Nat) : Rtype :=
  { Funct7 := (inst >>> 25) &&& 0b1111111
  , Rs2 := (inst >>> 20) &&& 0b11111
  , Rs1 := (inst >>> 15) &&& 0b11111
  , Funct3 := (inst >>> 12) &&& 0b111
  , Rd := (inst >>> 7) &&& 0b11111 }

/-- `Itype` of Instructions.h; `Imm` is the sign-extended 12-bit
immediate (`((int64_t)(int32_t)(inst & 0xfff00000)) >> 20`). -/
structure Itype where
  Imm : Int
  Rs1 : Nat
  Rd : Nat
  Funct3 : Nat

/-- The `Itype(uint32_t inst)` constructor. -/
def Itype.decode (inst : Nat) : Itype :=
  { Imm := signExtend (inst >>> 20) 12
  , Rs1 := (inst >>> 15) &&& 0b11111
  , Rd := (inst >>> 7) &&& 0b11111
  , Funct3 := (inst >>> 12) &&& 0b111 }

/-- `Stype` of Instructions.h. -/
structure Stype where
  Imm : Int
  Rs2 : Nat
  Rs1 : Nat
  Funct3 : Nat

/-- The `Stype(uint32_t inst)` constructor:
`imm = {inst[31:25], inst[11:7]}` sign-extended from 12 bits. -/
def Stype.decode (inst : Nat) : Stype :=
  let imm40 := (inst >>> 7) &&& 0b11111
  let imm115 := (inst >>> 25) &&& 0b1111111
  let imm := (imm115 <<< 5) ||| imm40
  { Imm := signExtend imm 12
  , Rs2 := (inst >>> 20) &&& 0b11111
  , Rs1 := (inst >>> 15) &&& 0b11111
  , Funct3 := (inst >>> 12) &&& 0b111 }

/-- `Jtype` of Instructions.h. -/
structure Jtype where
  Rd : Nat
  Imm : Int

/-- The `Jtype(uint32_t inst)` constructor:
`imm = {inst[31], inst[19:12], inst[20], inst[30:21], 0}` sign-extended
from 21 bits. -/
def Jtype.decode (inst : Nat) : Jtype :=
  let imm20 := (inst >>> 31) &&& 1
  let imm101 := (inst >>> 21) &&& 0b1111111111
  let imm11 := (inst >>> 20) &&& 1
  let imm1912 := (inst >>> 12) &&& 0b11111111
  let imm := (imm20 <<< 20) ||| (imm1912 <<< 12) ||| (imm11 <<< 11) ||| (imm101 <<< 1)
  { Rd := (inst >>> 7) &&& 0b11111
  , Imm := signExtend imm 21 }

/-- `Btype` of Instructions.h. -/
structure Btype where
  Imm : Int
  Rs2 : Nat
  Rs1 : Nat
  Funct3 : Nat

/-- The `Btype(uint32_t inst)` constructor:
`imm = {inst[31], inst[7], inst[30:25], inst[11:8], 0}` sign-extended
from 13 bits. -/
def Btype.decode (inst : Nat) : Btype :=
  let imm12 := (inst >>> 31) &&& 1
  let imm105 := (inst >>> 25) &&& 0b111111
  let imm41 := (inst >>> 8) &&& 0b1111
  let imm11 := (inst >>> 7) &&& 1
  let imm := (imm12 <<< 12) ||| (imm11 <<< 11) ||| (imm105 <<< 5) ||| (imm41 <<< 1)
  { Imm := signExtend imm 13
  , Rs2 := (inst >>> 20) &&& 0b11111
  , Rs1 := (inst >>> 15) &&& 0b11111
  , Funct3 := (inst >>> 12) &&& 0b111 }

/-- `Utype` of Instructions.h; `Imm = (int32_t)(inst & 0xfffff000)`. -/
structure Utype where
  Imm : Int
  Rd : Nat

/-- The `Utype(uint32_t inst)` constructor. -/
def Utype.decode (inst : Nat) : Utype :=
  { Imm := signExtend (inst &&& 0xfffff000) 32
  , Rd := (inst >>> 7) &&& 0b11111 }

/-! ## Faults and machine state -/

/-- The exception kinds thrown by the core (`IllegalInstruction`,
`LoadAccessFault`); their class bodies live outside src/ but carry no
data. -/
inductive Fault where
  | loadAccessFault
  | illegalInstruction
deriving DecidableEq

/-- Architectural state owned by `CPU`: program counter, the 32-entry
register file, the 4096-entry CSR file and the MMU byte array (indexed by
offset from `MemoryBaseAddr`).  Tables are modelled as total functions;
only indices 0–31 / 0–4095 / 0–(MemoryMaxSize−1) are ever used. -/
structure CPUState where
  pc : Nat
  registers : Nat → Nat
  csrs : Nat → Nat
  mem : Nat → Nat

/-! ## MMU (Machine.cpp) -/

/-- Modelled from the spec: the body of `MMU::withinRange` is absent from
the sources (only its call sites in `MMU::load` / `MMU::store` appear);
spec §3: "every access address must lie in range", the range being
`[BASE, BASE + SIZE)`.  Note the call sites pass only the start address,
so the predicate cannot depend on the access width. -/
def withinRange (addr : Nat) : Bool :=
  decide (MemoryBaseAddr ≤ addr) && decide (addr < MemoryBaseAddr + MemoryMaxSize)

/-- `MMU::load8`. -/
def MMU.load8 (m : Nat → Nat) (addr : Nat) : Nat :=
  m (addr - MemoryBaseAddr)

/-- `MMU::load16`. -/
def MMU.load16 (m : Nat → Nat) (addr : Nat) : Nat :=
  m (addr - MemoryBaseAddr) ||| (m (addr - MemoryBaseAddr + 1) <<< 8)

/-- `MMU::load32`. -/
def MMU.load32 (m : Nat → Nat) (addr : Nat) : Nat :=
  m (addr - MemoryBaseAddr) ||| (m (addr - MemoryBaseAddr + 1) <<< 8) |||
    (m (addr - MemoryBaseAddr + 2) <<< 16) ||| (m (addr - MemoryBaseAddr + 3) <<< 24)

/-- `MMU::load64`. -/
def MMU.load64 (m : Nat → Nat) (addr : Nat) : Nat :=
  m (addr - MemoryBaseAddr) ||| (m (addr - MemoryBaseAddr + 1) <<< 8) |||
    (m (addr - MemoryBaseAddr + 2) <<< 16) ||| (m (addr - MemoryBaseAddr + 3) <<< 24) |||
    (m (addr - MemoryBaseAddr + 4) <<< 32) ||| (m (addr - MemoryBaseAddr + 5) <<< 40) |||
    (m (addr - MemoryBaseAddr + 6) <<< 48) ||| (m (addr - MemoryBaseAddr + 7) <<< 56)

/-- `MMU::load`: range check on the start address only, then dispatch on
the width; the default case prints an error and returns `-1` (as
`uint64_t`, `2 ^ 64 - 1`). -/
def MMU.load (m : Nat → Nat) (addr size : Nat) : Except Fault Nat :=
  if withinRange addr = false then .error .loadAccessFault
  else
    match size with
    | 8 => .ok (MMU.load8 m addr)
    | 16 => .ok (MMU.load16 m addr)
    | 32 => .ok (MMU.load32 m addr)
    | 64 => .ok (MMU.load64 m addr)
    | _ => .ok (2 ^ 64 - 1)

/-- `MMU::store8`. -/
def MMU.store8 (m : Nat → Nat) (addr value : Nat) : Nat → Nat :=
  updNat m (addr - MemoryBaseAddr) (value &&& 0xFF)

/-- `MMU::store16`. -/
def MMU.store16 (m : Nat → Nat) (addr value : Nat) : Nat → Nat :=
  updNat (updNat m (addr - MemoryBaseAddr) (value &&& 0xFF))
    (addr - MemoryBaseAddr + 1) ((value >>> 8) &&& 0xFF)

/-- `MMU::store32`. -/
def MMU.store32 (m : Nat → Nat) (addr value : Nat) : Nat → Nat :=
  updNat (updNat (updNat (updNat m
    (addr - MemoryBaseAddr) (value &&& 0xFF))
    (addr - MemoryBaseAddr + 1) ((value >>> 8) &&& 0xFF))
    (addr - MemoryBaseAddr + 2) ((value >>> 16) &&& 0xFF))
    (addr - MemoryBaseAddr + 3) ((value >>> 24) &&& 0xFF)

/-- `MMU::store64`. -/
def MMU.store64 (m : Nat → Nat) (addr value : Nat) : Nat → Nat :=
  updNat (updNat (updNat (updNat (updNat (updNat (updNat (updNat m
    (addr - MemoryBaseAddr) (value &&& 0xFF))
    (addr - MemoryBaseAddr + 1) ((value >>> 8) &&& 0xFF))
    (addr - MemoryBaseAddr + 2) ((value >>> 16) &&& 0xFF))
    (addr - MemoryBaseAddr + 3) ((value >>> 24) &&& 0xFF))
    (addr - MemoryBaseAddr + 4) ((value >>> 32) &&& 0xFF))
    (addr - MemoryBaseAddr + 5) ((value >>> 40) &&& 0xFF))
    (addr - MemoryBaseAddr + 6) ((value >>> 48) &&& 0xFF))
    (addr - MemoryBaseAddr + 7) ((value >>> 56) &&& 0xFF)

/-- `MMU::store`: same range check as `MMU::load`; the `switch` has no
default case, so an unsupported width silently does nothing. -/
def MMU.store (m : Nat → Nat) (addr size value : Nat) : Except Fault (Nat → Nat) :=
  if withinRange addr = false then .error .loadAccessFault
  else
    match size with
    | 8 => .ok (MMU.store8 m addr value)
    | 16 => .ok (MMU.store16 m addr value)
    | 32 => .ok (MMU.store32 m addr value)
    | 64 => .ok (MMU.store64 m addr value)
    | _ => .ok m

/-! ## CSR file (CSR.h) -/

/-- CSR address constants from CSR.h. -/
def MStatus : Nat := 0x300

/-- `MIDeleg` (machine interrupt delegation register address). -/
def MIDeleg : Nat := 0x303

/-- `MIE` (machine interrupt-enable register address). -/
def MIE : Nat := 0x304

/-- `MIp` (machine interrupt pending register address). -/
def MIp : Nat := 0x344

/-- `SStatus` (supervisor status register address). -/
def SStatus : Nat := 0x100

/-- `Sie` (supervisor interrupt-enable register address). -/
def Sie : Nat := 0x104

/-- `Sip` (supervisor interrupt pending register address). -/
def Sip : Nat := 0x144

/-- `MaskSSTATUS` from CSR.h: `MaskSIE | MaskSPIE | MaskUBE | MaskSPP |
MaskFS | MaskXS | MaskSUM | MaskMXR | MaskUXL | MaskSD`. -/
def MaskSSTATUS : Nat :=
  (1 <<< 1) ||| (1 <<< 5) ||| (1 <<< 6) ||| (1 <<< 8) ||| (3 <<< 13) |||
    (3 <<< 15) ||| (1 <<< 18) ||| (1 <<< 19) ||| (3 <<< 32) ||| (1 <<< 63)

/-- `CSR::load`: aliased reads for `sie`, `sip`, `sstatus`; otherwise the
raw slot. -/
def CSR.load (c : Nat → Nat) (addr : Nat) : Nat :=
  if addr = Sie then c MIE &&& c MIDeleg
  else if addr = Sip then c MIp &&& c MIDeleg
  else if addr = SStatus then c MStatus &&& MaskSSTATUS
  else c addr

/-- `CSR::store`: the three aliasing branches of the source, in order,
then the unconditional raw-slot write `csrs[addr] = value`.  The `sip`
branch reproduces the source exactly: the preserved bits are taken from
`csrs[MIE]`, not `csrs[MIp]`. -/
def CSR.store (c : Nat → Nat) (addr value : Nat) : Nat → Nat :=
  let c1 := if addr = Sie then
      updNat c MIE ((c MIE &&& cNot64 (c MIDeleg)) ||| (value &&& c MIDeleg))
    else c
  let c2 := if addr = Sip then
      updNat c1 MIp ((c1 MIE &&& cNot64 (c1 MIDeleg)) ||| (value &&& c1 MIDeleg))
    else c1
  let c3 := if addr = SStatus then
      updNat c2 MStatus ((c2 MStatus &&& cNot64 MaskSSTATUS) ||| (value &&& MaskSSTATUS))
    else c2
  updNat c3 addr value

/-! ## Execution engine (CPU::execute in Machine.cpp)

The run loop advances `pc` by 4 between decode and execute, so inside
`execute` the field `pc` already points 4 bytes past the executing
instruction.  Each `exec…` function below is one `case` of the `switch`
in `CPU::execute`, translated branch by branch. -/

/-- `CPU::setRegister`: writes to register 0 are discarded. -/
def setRegister (regs : Nat → Nat) (reg value : Nat) : Nat → Nat :=
  if reg = 0 then regs else updNat regs reg value

/-- The LUI case.  `imm & 0xFFFFF000` converts the `int32_t` immediate to
`unsigned int` first, so the value handed to `signExtend(·, 64)` is the
zero-extended 32-bit pattern. -/
def execLUI (s : CPUState) (inst : Nat) : CPUState :=
  let u := Utype.decode inst
  let value := signExtend (wrap32 u.Imm &&& 0xFFFFF000) 64
  { s with registers := setRegister s.registers u.Rd (wrap64 value) }

/-- The AUIPC case: `offset = pc + signExtend(imm & 0xFFFFF000, 64) - 4`
in `uint64_t` arithmetic. -/
def execAUIPC (s : CPUState) (inst : Nat) : CPUState :=
  let u := Utype.decode inst
  let offset := wrap64 ((s.pc : Int) + signExtend (wrap32 u.Imm &&& 0xFFFFF000) 64 - 4)
  { s with registers := setRegister s.registers u.Rd offset }

/-- The JAL case: `setRegister(rd, pc); pc = pc + signExtend(imm - 4, 64)`.
The subtraction happens on the `int` immediate before the (identity)
64-bit sign extension. -/
def execJAL (s : CPUState) (inst : Nat) : CPUState :=
  let j := Jtype.decode inst
  let s1 := { s with registers := setRegister s.registers j.Rd s.pc }
  { s1 with pc := wrap64 ((s.pc : Int) + (j.Imm - 4)) }

/-- The JALR case:
`pc = (registers[rs1] + signExtend(imm, 64)) & 0xFFFFFFFE - 4;`
C++ gives `-` a higher precedence than `&`, so the mask actually applied
is `0xFFFFFFFE - 4 = 0xFFFFFFFA`; `setRegister(rd, oldPC)` runs after the
`pc` update. -/
def execJALR (s : CPUState) (inst : Nat) : CPUState :=
  let i := Itype.decode inst
  let oldPC := s.pc
  let s1 := { s with pc := wrap64 ((s.registers i.Rs1 : Int) + i.Imm) &&& (0xFFFFFFFE - 4) }
  { s1 with registers := setRegister s1.registers i.Rd oldPC }

/-- The BRANCH case.  The source is a sequence of `if` blocks on
mutually exclusive `funct3` values; when taken, every branch assigns
`pc = pc + imm` (`signExtend(imm, 64)` and `(int64_t)imm` agree on the
decoded immediate).  `funct3` values `0b010` and `0b011` match no block
and fall through silently. -/
def execBRANCH (s : CPUState) (inst : Nat) : CPUState :=
  let b := Btype.decode inst
  let r1 := s.registers b.Rs1
  let r2 := s.registers b.Rs2
  let taken :=
    if b.Funct3 = 0b000 then r1 = r2
    else if b.Funct3 = 0b001 then r1 ≠ r2
    else if b.Funct3 = 0b100 then toSigned r1 < toSigned r2
    else if b.Funct3 = 0b101 then toSigned r2 ≤ toSigned r1
    else if b.Funct3 = 0b110 then r1 < r2
    else if b.Funct3 = 0b111 then r2 ≤ r1
    else False
  if taken then { s with pc := wrap64 ((s.pc : Int) + b.Imm) } else s

/-- One branch of the LOAD case: `value = conv(load(addr, sz));
setRegister(rd, value)`.  A fault thrown by `MMU::load` unwinds before
the register write. -/
def loadStep (s : CPUState) (rd ea sz : Nat) (conv : Nat → Nat) : Except Fault CPUState :=
  match MMU.load s.mem ea sz with
  | .error f => .error f
  | .ok v => .ok { s with registers := setRegister s.registers rd (conv v) }

/-- The LOAD case: effective address `registers[rs1] + imm` (wrapping),
then per-`funct3` width and extension; `funct3 = 0b111` matches no branch
and is a silent no-op. -/
def execLOAD (s : CPUState) (inst : Nat) : Except Fault CPUState :=
  let i := Itype.decode inst
  let ea := wrap64 ((s.registers i.Rs1 : Int) + i.Imm)
  if i.Funct3 = 0b000 then loadStep s i.Rd ea 8 (fun v => wrap64 (signExtend v 8))
  else if i.Funct3 = 0b001 then loadStep s i.Rd ea 16 (fun v => wrap64 (signExtend v 16))
  else if i.Funct3 = 0b010 then loadStep s i.Rd ea 32 (fun v => wrap64 (signExtend v 32))
  else if i.Funct3 = 0b011 then loadStep s i.Rd ea 64 (fun v => v)
  else if i.Funct3 = 0b100 then loadStep s i.Rd ea 8 (fun v => v)
  else if i.Funct3 = 0b101 then loadStep s i.Rd ea 16 (fun v => v)
  else if i.Funct3 = 0b110 then loadStep s i.Rd ea 32 (fun v => v)
  else .ok s

/-- One branch of the STORE case: `store(addr, sz, value)`. -/
def storeStep (s : CPUState) (ea sz v : Nat) : Except Fault CPUState :=
  match MMU.store s.mem ea sz v with
  | .error f => .error f
  | .ok m => .ok { s with mem := m }

/-- The STORE case: effective address `getRegister(rs1) + imm`, value
`getRegister(rs2)`; `funct3` above `0b011` matches no branch. -/
def execSTORE (s : CPUState) (inst : Nat) : Except Fault CPUState :=
  let st := Stype.decode inst
  let ea := wrap64 ((s.registers st.Rs1 : Int) + st.Imm)
  let v := s.registers st.Rs2
  if st.Funct3 = 0b000 then storeStep s ea 8 v
  else if st.Funct3 = 0b001 then storeStep s ea 16 v
  else if st.Funct3 = 0b010 then storeStep s ea 32 v
  else if st.Funct3 = 0b011 then storeStep s ea 64 v
  else .ok s

/-- The ARITHR case: a sequence of `if` blocks on mutually exclusive
`(funct3, funct7)` pairs; no matching pair silently does nothing.
SUB is dispatched on the source's `funct7 == 0b0000010` literal.  SLL
shifts by the full (unmasked) `rs2` value — the masking line is commented
out in the source, so a count ≥ 64 is undefined behaviour in C++; the
model takes the mathematical shift reduced modulo `2 ^ 64`.  SRL and SRA
mask the count to 6 bits. -/
def execARITHR (s : CPUState) (inst : Nat) : CPUState :=
  let r := Rtype.decode inst
  let rs1 := s.registers r.Rs1
  let rs2 := s.registers r.Rs2
  if r.Funct3 = 0b000 ∧ r.Funct7 = 0b0000000 then
    { s with registers := setRegister s.registers r.Rd ((rs1 + rs2) % 2 ^ 64) }
  else if r.Funct3 = 0b000 ∧ r.Funct7 = 0b0000010 then
    { s with registers := setRegister s.registers r.Rd (wrap64 ((rs1 : Int) - (rs2 : Int))) }
  else if r.Funct3 = 0b001 ∧ r.Funct7 = 0b0000000 then
    { s with registers := setRegister s.registers r.Rd ((rs1 <<< rs2) % 2 ^ 64) }
  else if r.Funct3 = 0b010 ∧ r.Funct7 = 0b0000000 then
    { s with registers := setRegister s.registers r.Rd (if toSigned rs1 < toSigned rs2 then 1 else 0) }
  else if r.Funct3 = 0b011 ∧ r.Funct7 = 0b0000000 then
    { s with registers := setRegister s.registers r.Rd (if rs1 < rs2 then 1 else 0) }
  else if r.Funct3 = 0b100 ∧ r.Funct7 = 0b0000000 then
    { s with registers := setRegister s.registers r.Rd (rs1 ^^^ rs2) }
  else if r.Funct3 = 0b101 ∧ r.Funct7 = 0b0000000 then
    { s with registers := setRegister s.registers r.Rd (rs1 >>> (rs2 &&& 0x3f)) }
  else if r.Funct3 = 0b101 ∧ r.Funct7 = 0b0100000 then
    { s with registers := setRegister s.registers r.Rd (wrap64 (sar (toSigned rs1) (rs2 &&& 0x3f))) }
  else if r.Funct3 = 0b110 ∧ r.Funct7 = 0b0000000 then
    { s with registers := setRegister s.registers r.Rd (rs1 ||| rs2) }
  else if r.Funct3 = 0b111 ∧ r.Funct7 = 0b0000000 then
    { s with registers := setRegister s.registers r.Rd (rs1 &&& rs2) }
  else s

/-- The ARITHI case.  SLTI compares `uint64_t` against `(int64_t)imm`,
which C++ converts back to `uint64_t`, so both SLTI and SLTIU compare
unsigned.  Immediate shifts mask the count to 6 bits; SRAI is dispatched
on `funct7 >> 1 == 0x10`. -/
def execARITHI (s : CPUState) (inst : Nat) : CPUState :=
  let i := Itype.decode inst
  let r := Rtype.decode inst
  let rs1 := s.registers i.Rs1
  if i.Funct3 = 0b000 then
    { s with registers := setRegister s.registers i.Rd (wrap64 ((rs1 : Int) + i.Imm)) }
  else if i.Funct3 = 0b010 then
    { s with registers := setRegister s.registers i.Rd (if rs1 < wrap64 i.Imm then 1 else 0) }
  else if i.Funct3 = 0b011 then
    { s with registers := setRegister s.registers i.Rd (if rs1 < wrap64 i.Imm then 1 else 0) }
  else if i.Funct3 = 0b100 then
    { s with registers := setRegister s.registers i.Rd (rs1 ^^^ wrap64 i.Imm) }
  else if i.Funct3 = 0b110 then
    { s with registers := setRegister s.registers i.Rd (rs1 ||| wrap64 i.Imm) }
  else if i.Funct3 = 0b111 then
    { s with registers := setRegister s.registers i.Rd (rs1 &&& wrap64 i.Imm) }
  else if i.Funct3 = 0b001 then
    { s with registers := setRegister s.registers i.Rd ((rs1 <<< (wrap64 i.Imm &&& 0x3f)) % 2 ^ 64) }
  else if i.Funct3 = 0b101 then
    if r.Funct7 = 0x00 then
      { s with registers := setRegister s.registers i.Rd (rs1 >>> (wrap64 i.Imm &&& 0x3f)) }
    else if r.Funct7 >>> 1 = 0x10 then
      { s with registers := setRegister s.registers i.Rd (wrap64 (sar (toSigned rs1) (wrap64 i.Imm &&& 0x3f))) }
    else s
  else s

/-- The ARITHIW case.  ADDIW truncates the 64-bit sum to 32 bits and
sign-extends; SLLIW shifts the sign-extended 32-bit view of `rs1` as an
`int64_t`; the SRLIW and SRAIW branches of the source are textually
identical (both arithmetic on the sign-extended 32-bit view).  The shift
count is `imm & 0x3f`. -/
def execARITHIW (s : CPUState) (inst : Nat) : CPUState :=
  let i := Itype.decode inst
  let r := Rtype.decode inst
  if i.Funct3 = 0b000 then
    { s with registers := (setRegister s.registers i.Rd
        (wrap64 (signExtend (wrap64 ((s.registers i.Rs1 : Int) + i.Imm)) 32))) }
  else if i.Funct3 = 0b001 then
    { s with registers := (setRegister s.registers r.Rd
        (wrap64 (signExtend (s.registers r.Rs1) 32 * 2 ^ (wrap64 i.Imm &&& 0x3f)))) }
  else if i.Funct3 = 0b101 then
    if r.Funct7 >>> 1 = 0x00 then
      { s with registers := (setRegister s.registers r.Rd
          (wrap64 (sar (signExtend (s.registers i.Rs1) 32) (wrap64 i.Imm &&& 0x3f)))) }
    else if r.Funct7 >>> 1 = 0x10 then
      { s with registers := (setRegister s.registers r.Rd
          (wrap64 (sar (signExtend (s.registers i.Rs1) 32) (wrap64 i.Imm &&& 0x3f)))) }
    else s
  else s

/-- The ARITHRW case.  ADDW/SUBW operate on the sign-extended 32-bit view
of `rs1` and the full `(int64_t)` view of `rs2`; SLLW/SRLW shift the full
`uint64_t` `rs1` by the full `rs2` and then truncate-and-sign-extend;
SRAW's count is `(int32_t)rs2` converted back to `uint64_t`. -/
def execARITHRW (s : CPUState) (inst : Nat) : CPUState :=
  let r := Rtype.decode inst
  let rs1 := s.registers r.Rs1
  let rs2 := s.registers r.Rs2
  if r.Funct3 = 0b000 then
    if r.Funct7 >>> 1 = 0x00 then
      { s with registers := setRegister s.registers r.Rd (wrap64 (signExtend rs1 32 + toSigned rs2)) }
    else if r.Funct7 >>> 1 = 0x10 then
      { s with registers := setRegister s.registers r.Rd (wrap64 (signExtend rs1 32 - toSigned rs2)) }
    else s
  else if r.Funct3 = 0b001 then
    { s with registers := setRegister s.registers r.Rd (wrap64 (signExtend ((rs1 <<< rs2) % 2 ^ 64) 32)) }
  else if r.Funct3 = 0b101 then
    if r.Funct7 >>> 1 = 0x00 then
      { s with registers := setRegister s.registers r.Rd (wrap64 (signExtend (rs1 >>> rs2) 32)) }
    else if r.Funct7 >>> 1 = 0x10 then
      { s with registers := (setRegister s.registers r.Rd
          (wrap64 (signExtend (rs1 >>> wrap64 (signExtend rs2 32)) 32))) }
    else s
  else s

/-- The CSR case.  Register writes here use `registers[rd] = t` directly
on the array — not `setRegister` — so they are not guarded against
`rd = 0`.  For the immediate forms the 5-bit `rs1` field itself is the
zero-extended operand. -/
def execCSR (s : CPUState) (inst : Nat) : CPUState :=
  let rd := (inst &&& 0x00000f80) >>> 7
  let rs1 := (inst &&& 0x000f8000) >>> 15
  let addr := (inst &&& 0xfff00000) >>> 20
  let funct3 := (inst &&& 0x00007000) >>> 12
  if funct3 = 0x1 then
    let t := CSR.load s.csrs addr
    { s with csrs := CSR.store s.csrs addr (s.registers rs1)
           , registers := updNat s.registers rd t }
  else if funct3 = 0x2 then
    let t := CSR.load s.csrs addr
    { s with csrs := CSR.store s.csrs addr (t ||| s.registers rs1)
           , registers := updNat s.registers rd t }
  else if funct3 = 0x3 then
    let t := CSR.load s.csrs addr
    { s with csrs := CSR.store s.csrs addr (t &&& cNot64 (s.registers rs1))
           , registers := updNat s.registers rd t }
  else if funct3 = 0x5 then
    let t := CSR.load s.csrs addr
    { s with registers := updNat s.registers rd t
           , csrs := CSR.store s.csrs addr rs1 }
  else if funct3 = 0x6 then
    let t := CSR.load s.csrs addr
    { s with csrs := CSR.store s.csrs addr (t ||| rs1)
           , registers := updNat s.registers rd t }
  else if funct3 = 0x7 then
    let t := CSR.load s.csrs addr
    { s with csrs := CSR.store s.csrs addr (t &&& cNot64 rs1)
           , registers := updNat s.registers rd t }
  else s

/-- `CPU::execute`: dispatch on the low 7 bits.  The source `switch`
lacks `break` statements at the end of the ARITHIW and ARITHRW cases, so
an ARITHIW word also executes the ARITHRW and CSR cases on the same bits,
and an ARITHRW word also executes the CSR case.  The opcode `0b0001111`
(FENCE) has no case and reaches the `default`, which throws
`IllegalInstruction`. -/
def CPU.execute (s : CPUState) (inst : Nat) : Except Fault CPUState :=
  let op := inst &&& 0b1111111
  if op = 0b0110111 then .ok (execLUI s inst)
  else if op = 0b0010111 then .ok (execAUIPC s inst)
  else if op = 0b1101111 then .ok (execJAL s inst)
  else if op = 0b1100111 then .ok (execJALR s inst)
  else if op = 0b1100011 then .ok (execBRANCH s inst)
  else if op = 0b0000011 then execLOAD s inst
  else if op = 0b0100011 then execSTORE s inst
  else if op = 0b0110011 then .ok (execARITHR s inst)
  else if op = 0b0010011 then .ok (execARITHI s inst)
  else if op = 0b0011011 then .ok (execCSR (execARITHRW (execARITHIW s inst) inst) inst)
  else if op = 0b0111011 then .ok (execCSR (execARITHRW s inst) inst)
  else if op = 0b1110011 then .ok (execCSR s inst)
  else .error .illegalInstruction

/-- The `CPU` constructor (Machine.h): from an arbitrary (indeterminate)
prior state it sets `registers[0] = 0`, `registers[2] = MemoryBaseAddr +
MemoryMaxSize`, `pc = MemoryBaseAddr`, and copies the program image into
the front of the MMU byte array; nothing else is initialized. -/
def CPU.reset (prior : CPUState) (code : List Nat) : CPUState :=
  { pc := MemoryBaseAddr
  , registers := updNat (updNat prior.registers 0 0) 2 (MemoryBaseAddr + MemoryMaxSize)
  , csrs := prior.csrs
  , mem := fun i => if i < code.length then code.getD i 0 else prior.mem i }

/-- Two consecutive execute steps (exceptions short-circuit). -/
def exec2 (s : CPUState) (w1 w2 : Nat) : Except Fault CPUState :=
  (CPU.execute s w1).bind fun s1 => CPU.execute s1 w2

/-- Program counter of an execute result, when no fault was raised. -/
def resPC (e : Except Fault CPUState) : Option Nat :=
  e.toOption.map CPUState.pc

/-- A register of an execute result, when no fault was raised. -/
def resReg (e : Except Fault CPUState) (i : Nat) : Option Nat :=
  e.toOption.map fun s => s.registers i

/-- A raw CSR slot of an execute result, when no fault was raised. -/
def resCSR (e : Except Fault CPUState) (i : Nat) : Option Nat :=
  e.toOption.map fun s => s.csrs i

/-- The twelve opcode values that have a `case` in `CPU::execute`. -/
def handledOpcodes : List Nat :=
  [0b0110111, 0b0010111, 0b1101111, 0b1100111, 0b1100011, 0b0000011,
   0b0100011, 0b0110011, 0b0010011, 0b0011011, 0b0111011, 0b1110011]

/-! ## Concrete states and instruction words used by the theorems -/

/-- The all-zero table. -/
def zeroFn : Nat → Nat := fun _ => 0

/-- A state with a given `pc` and register file, zero CSRs and memory. -/
def mkState (pc : Nat) (regs : Nat → Nat) : CPUState :=
  { pc := pc, registers := regs, csrs := zeroFn, mem := zeroFn }

/-- A wholly arbitrary pre-construction state (all tables 7). -/
def priorSeven : CPUState :=
  { pc := 0, registers := fun _ => 7, csrs := fun _ => 7, mem := fun _ => 7 }

/-- State for the BEQ evaluation: the branch word sits at `0x80000000`,
so the advanced `pc` is `0x80000004`; all registers zero. -/
def sC1 : CPUState := mkState 0x80000004 zeroFn

/-- State for the JALR evaluation: `x[1] = 0x80000004`. -/
def sC2 : CPUState := mkState 0x80001000 (fun i => if i = 1 then 0x80000004 else 0)

/-- State for the CSR x0-clobber evaluation: everything zero. -/
def sC4 : CPUState := mkState 0x80000004 zeroFn

/-- `csrrwi x0, mscratch, 5` (funct3 101, rd 0, zimm 5, csr 0x340). -/
def wCSRRWI : Nat := (0x340 <<< 20) ||| (5 <<< 15) ||| (5 <<< 12) ||| 0x73

/-- `csrrw x0, mscratch, x0` (funct3 001, rd 0, rs1 0, csr 0x340). -/
def wCSRRW : Nat := (0x340 <<< 20) ||| (1 <<< 12) ||| 0x73

/-- State for the ARITHIW fall-through evaluation: `x[5] = 7`. -/
def sC6 : CPUState := mkState 0x80000008 (fun i => if i = 5 then 7 else 0)

/-- CSR file for the `sip` store evaluation: `mip = 0xFF`, everything
else (in particular `mie` and `mideleg`) zero. -/
def csrsC7 : Nat → Nat := fun a => if a = MIp then 0xFF else 0

/-- State for the SLL evaluation: `x[1] = 1`, `x[2] = 64`. -/
def sC8 : CPUState := mkState 0x80000008 (fun i => if i = 1 then 1 else if i = 2 then 64 else 0)

/-- State for the canonical-SUB evaluation: `x[1] = 5`. -/
def s9 : CPUState := mkState 0x80000004 (fun i => if i = 1 then 5 else 0)

/-- State for the LOAD-fault witness: all registers zero, so `lb x1, 0(x0)`
targets effective address 0, far below `MemoryBaseAddr`. -/
def sC10 : CPUState := mkState 0x80000004 zeroFn

/-! ## Helper lemmas shared by several claims -/

/-- `MMU::load` throws only `LoadAccessFault`. -/
theorem MMU.load_error_fault (m : Nat → Nat) (addr sz : Nat) (f : Fault)
    (h : MMU.load m addr sz = .error f) : f = Fault.loadAccessFault := by
  unfold MMU.load at h
  split at h
  · injection h with h2
    exact h2.symm
  · split at h <;> exact Except.noConfusion h

/-- `MMU::store` throws only `LoadAccessFault`. -/
theorem MMU.store_error_fault (m : Nat → Nat) (addr sz v : Nat) (f : Fault)
    (h : MMU.store m addr sz v = .error f) : f = Fault.loadAccessFault := by
  unfold MMU.store at h
  split at h
  · injection h with h2
    exact h2.symm
  · split at h <;> exact Except.noConfusion h

/-- A LOAD branch never raises `IllegalInstruction`. -/
theorem loadStep_ne_illegal (s : CPUState) (rd ea sz : Nat) (conv : Nat → Nat) :
    loadStep s rd ea sz conv ≠ .error .illegalInstruction := by
  unfold loadStep
  cases hm : MMU.load s.mem ea sz with
  | error f =>
      have hf := MMU.load_error_fault s.mem ea sz f hm
      subst hf
      simp
  | ok v => simp

/-- A STORE branch never raises `IllegalInstruction`. -/
theorem storeStep_ne_illegal (s : CPUState) (ea sz v : Nat) :
    storeStep s ea sz v ≠ .error .illegalInstruction := by
  unfold storeStep
  cases hm : MMU.store s.mem ea sz v with
  | error f =>
      have hf := MMU.store_error_fault s.mem ea sz v f hm
      subst hf
      simp
  | ok m => simp

/-- The LOAD case never raises `IllegalInstruction`. -/
theorem execLOAD_ne_illegal (s : CPUState) (w : Nat) :
    execLOAD s w ≠ .error .illegalInstruction := by
  simp only [execLOAD]
  split_ifs <;> first | apply loadStep_ne_illegal | simp

/-- The STORE case never raises `IllegalInstruction`. -/
theorem execSTORE_ne_illegal (s : CPUState) (w : Nat) :
    execSTORE s w ≠ .error .illegalInstruction := by
  simp only [execSTORE]
  split_ifs <;> first | apply storeStep_ne_illegal | simp

/-- A LOAD branch whose effective address fails the range check raises
`LoadAccessFault`. -/
theorem loadStep_fault (s : CPUState) (rd ea sz : Nat) (conv : Nat → Nat)
    (h : withinRange ea = false) :
    loadStep s rd ea sz conv = .error .loadAccessFault := by
  unfold loadStep MMU.load
  simp [h]

/-- The LOAD case with an implemented `funct3` (0–6) and an out-of-range
effective address raises `LoadAccessFault`. -/
theorem execLOAD_fault (s : CPUState) (w : Nat)
    (h3 : (Itype.decode w).Funct3 < 7)
    (hr : withinRange (wrap64 ((s.registers (Itype.decode w).Rs1 : Int) + (Itype.decode w).Imm)) = false) :
    execLOAD s w = .error .loadAccessFault := by
  have hstep : ∀ rd sz conv, loadStep s rd
      (wrap64 ((s.registers (Itype.decode w).Rs1 : Int) + (Itype.decode w).Imm)) sz conv =
      .error .loadAccessFault :=
    fun rd sz conv => loadStep_fault s rd _ sz conv hr
  simp only [execLOAD]
  split_ifs with h0 h1 h2 h3' h4 h5 h6
  · exact hstep _ _ _
  · exact hstep _ _ _
  · exact hstep _ _ _
  · exact hstep _ _ _
  · exact hstep _ _ _
  · exact hstep _ _ _
  · exact hstep _ _ _
  · exact absurd h3 (by omega)

/-! ## Claim theorems -/

/-- C1: evaluation at a concrete taken branch.  `beq x0, x0, +8`
(word `0x463`) at instruction address `0x80000000`, so the advanced
`PC_current` is `0x80000004`.  The source assigns `pc = pc + imm` with no
`-4` compensation, giving `0x8000000C`; the claim (and the RISC-V ISA,
and the `-4` pattern of the neighbouring AUIPC/JAL cases) demands
`(PC_current - 4) + imm = 0x80000008`. -/
theorem branch_taken_pc_eval :
    resPC (CPU.execute sC1 0x463) = some 0x8000000C ∧ (Btype.decode 0x463).Imm = 8 ∧
      (0x80000004 - 4) + (Btype.decode 0x463).Imm = (0x80000008 : Int) := by
  refine ⟨by decide, by decide, by decide⟩

/-- C2: evaluation of `jalr x3, 0(x1)` (word `0x81E7`) with
`x[1] = 0x80000004` and advanced `pc = 0x80001000`.  C++ operator
precedence turns `& 0xFFFFFFFE - 4` into `& 0xFFFFFFFA`, which clears
bit 2 (and bits 32–63) of the target: the source produces `0x80000000`
while the claim's `tmp = (x[rs1] + imm) & ~1` is `0x80000004` (third
conjunct).  The link register does receive the post-advance PC. -/
theorem jalr_target_eval :
    resPC (CPU.execute sC2 0x81E7) = some 0x80000000 ∧
      resReg (CPU.execute sC2 0x81E7) 3 = some 0x80001000 ∧
      wrap64 ((sC2.registers 1 : Int) + (Itype.decode 0x81E7).Imm) &&& 0xFFFFFFFE = 0x80000004 := by
  refine ⟨by decide, by decide, by decide⟩

/-- C3: the range check of `MMU::load` tests only the start address.
Width-64 loads at `BASE` and `BASE + SIZE - 8` succeed as the claim says,
but a width-64 load at `BASE + SIZE - 1` — whose last seven bytes lie
past the end of the byte array — also succeeds (third conjunct), where
the claim demands a `LoadAccessFault`; only a start address outside
`[BASE, BASE + SIZE)` faults (fourth conjunct). -/
theorem mmu_load_end_byte_unchecked :
    MMU.load zeroFn MemoryBaseAddr 64 = .ok 0 ∧
      MMU.load zeroFn (MemoryBaseAddr + MemoryMaxSize - 8) 64 = .ok 0 ∧
      MMU.load zeroFn (MemoryBaseAddr + MemoryMaxSize - 1) 64 = .ok 0 ∧
      MMU.load zeroFn (MemoryBaseAddr + MemoryMaxSize) 64 = .error .loadAccessFault :=
  ⟨rfl, rfl, rfl, rfl⟩

/-- C4: the CSR case writes `registers[rd] = t` directly, bypassing the
`setRegister` zero guard.  From the all-zero state, `csrrwi x0, 0x340, 5`
then `csrrw x0, 0x340, x0` leaves `x[0] = 5`. -/
theorem csr_write_clobbers_x0 :
    resReg (exec2 sC4 wCSRRWI wCSRRW) 0 = some 5 := by decide

/-- C5 counterexample: constructing a CPU over an arbitrary prior state
(all tables 7) gives `x[2] = MemoryBaseAddr + MemoryMaxSize`
(`0x80100000`), not `BASE + SIZE - 4` as the claim states (and registers
other than 0 and 2 are not zeroed). -/
theorem reset_sp_counterexample :
    ¬ ((CPU.reset priorSeven []).registers 2 = MemoryBaseAddr + MemoryMaxSize - 4 ∧
       ∀ i, i ≠ 2 → (CPU.reset priorSeven []).registers i = 0) := by
  intro h
  exact absurd h.1 (by decide)

/-- C5 (amended): after construction, `pc = MemoryBaseAddr`,
`x[0] = 0`, `x[2] = MemoryBaseAddr + MemoryMaxSize` (no `- 4`), and every
other register keeps its pre-construction (indeterminate) contents — the
constructor initializes nothing else. -/
theorem reset_state_amended (prior : CPUState) (code : List Nat) :
    (CPU.reset prior code).pc = MemoryBaseAddr ∧
      (CPU.reset prior code).registers 0 = 0 ∧
      (CPU.reset prior code).registers 2 = MemoryBaseAddr + MemoryMaxSize ∧
      ∀ i, i ≠ 0 → i ≠ 2 → (CPU.reset prior code).registers i = prior.registers i := by
  refine ⟨rfl, rfl, rfl, ?_⟩
  intro i h0 h2
  show updNat (updNat prior.registers 0 0) 2 (MemoryBaseAddr + MemoryMaxSize) i = prior.registers i
  unfold updNat
  simp [h0, h2]

/-- C5 witness: the amended reset theorem applied to the concrete prior
state whose registers all hold 7. -/
theorem reset_state_amended_witness :
    (CPU.reset priorSeven []).registers 1 = 7 :=
  ((reset_state_amended priorSeven []).2.2.2 1 (by decide) (by decide)).trans rfl

/-- C6: the ARITHIW case has no `break`, so an ADDIW word falls through
into the ARITHRW case (and then the CSR case, a no-op for funct3 0).
Executing `addiw x1, x0, 5` (word `0x50009B`) with `x[5] = 7` first sets
`x[1] = 5` (the value the claim demands — second conjunct), then the
fall-through re-reads the word as ADDW with `rs2 = 5` (the immediate's
low bits) and overwrites `x[1]` with 7. -/
theorem addiw_fallthrough_eval :
    resReg (CPU.execute sC6 0x50009B) 1 = some 7 ∧
      wrap64 (signExtend (wrap64 ((sC6.registers 0 : Int) + (Itype.decode 0x50009B).Imm)) 32) = 5 := by
  refine ⟨by decide, by decide⟩

/-- C7: the `sip` branch of `CSR::store` takes the preserved bits from
`csrs[MIE]` instead of `csrs[MIp]`.  With `mip = 0xFF`, `mie = 0`,
`mideleg = 0`, storing 0 to `sip` must (per the claim) leave every bit of
`mip` intact, yet the source sets `mip = 0`.  Loads of `sip` and the
`sie`/`sstatus` relations are as claimed. -/
theorem sip_store_clobbers_mip :
    CSR.store csrsC7 Sip 0 MIp = 0 ∧ csrsC7 MIp = 0xFF ∧ csrsC7 MIDeleg = 0 ∧
      CSR.load csrsC7 Sip = csrsC7 MIp &&& csrsC7 MIDeleg := by
  refine ⟨by decide, by decide, by decide, by decide⟩

/-- C8: the SLL case shifts by the full, unmasked `x[rs2]` (the masking
line is commented out in the source; a count ≥ 64 is undefined behaviour
in C++, modelled as the mathematical shift mod `2 ^ 64`).  Executing
`sll x3, x1, x2` (word `0x2091B3`) with `x[1] = 1`, `x[2] = 64` yields 0,
while the claim's 6-bit masking demands a shift by `64 & 0x3f = 0`,
i.e. result 1 (second conjunct). -/
theorem sll_unmasked_shift_eval :
    resReg (CPU.execute sC8 0x2091B3) 3 = some 0 ∧
      ((sC8.registers 1 <<< (sC8.registers 2 &&& 0x3f)) % 2 ^ 64 = 1) := by
  refine ⟨by decide, by decide⟩

/-- C9 counterexample: the canonical SUB encoding (`funct3 = 000`,
`funct7 = 0b0100000`, word `0x400000B3`, `rd = x1`, `rs1 = rs2 = x0`)
matches no branch of the ARITHR case — the source dispatches SUB on
`funct7 == 0b0000010` — and no exception is raised: execute returns the
state unchanged (`x[1]` stays 5, where SUB would write 0). -/
theorem canonical_sub_silent_noop :
    CPU.execute s9 0x400000B3 = .ok s9 ∧ s9.registers 1 = 5 :=
  ⟨rfl, rfl⟩

/-- C9 (amended): `IllegalInstruction` is raised exactly when the low 7
bits of the word are not one of the twelve opcode groups with a `case` in
`CPU::execute` (so FENCE, `0b0001111`, raises it); consequently an
unmatched funct3/funct7 combination within a handled group never raises
`IllegalInstruction` — only the `switch` default throws.  (What such an
unmatched word does instead varies by group: the ARITHR case leaves the
state unchanged, see the counterexample, while the ARITHIW/ARITHRW cases
fall through into later cases.) -/
theorem illegal_iff_unhandled_opcode (s : CPUState) (w : Nat) :
    CPU.execute s w = .error .illegalInstruction ↔ (w &&& 0b1111111) ∉ handledOpcodes := by
  by_cases h1 : w &&& 127 = 55
  · simp [CPU.execute, handledOpcodes, h1]
  by_cases h2 : w &&& 127 = 23
  · simp [CPU.execute, handledOpcodes, h1, h2]
  by_cases h3 : w &&& 127 = 111
  · simp [CPU.execute, handledOpcodes, h1, h2, h3]
  by_cases h4 : w &&& 127 = 103
  · simp [CPU.execute, handledOpcodes, h1, h2, h3, h4]
  by_cases h5 : w &&& 127 = 99
  · simp [CPU.execute, handledOpcodes, h1, h2, h3, h4, h5]
  by_cases h6 : w &&& 127 = 3
  · simp [CPU.execute, handledOpcodes, h1, h2, h3, h4, h5, h6, execLOAD_ne_illegal]
  by_cases h7 : w &&& 127 = 35
  · simp [CPU.execute, handledOpcodes, h1, h2, h3, h4, h5, h6, h7, execSTORE_ne_illegal]
  by_cases h8 : w &&& 127 = 51
  · simp [CPU.execute, handledOpcodes, h1, h2, h3, h4, h5, h6, h7, h8]
  by_cases h9 : w &&& 127 = 19
  · simp [CPU.execute, handledOpcodes, h1, h2, h3, h4, h5, h6, h7, h8, h9]
  by_cases h10 : w &&& 127 = 27
  · simp [CPU.execute, handledOpcodes, h1, h2, h3, h4, h5, h6, h7, h8, h9, h10]
  by_cases h11 : w &&& 127 = 59
  · simp [CPU.execute, handledOpcodes, h1, h2, h3, h4, h5, h6, h7, h8, h9, h10, h11]
  by_cases h12 : w &&& 127 = 115
  · simp [CPU.execute, handledOpcodes, h1, h2, h3, h4, h5, h6, h7, h8, h9, h10, h11, h12]
  simp [CPU.execute, handledOpcodes, h1, h2, h3, h4, h5, h6, h7, h8, h9, h10, h11, h12]

/-- C10: a LOAD-group instruction (one of the seven implemented loads,
`funct3` 0–6) whose effective address `x[rs1] + imm` fails the range
check raises `LoadAccessFault` out of the execute step before any state
change — the thrown fault unwinds before the destination register is
written, so registers, CSRs and memory are untouched. -/
theorem load_out_of_range_faults (s : CPUState) (w : Nat)
    (hop : w &&& 0b1111111 = 0b0000011)
    (h3 : (Itype.decode w).Funct3 < 7)
    (hr : withinRange (wrap64 ((s.registers (Itype.decode w).Rs1 : Int) + (Itype.decode w).Imm)) = false) :
    CPU.execute s w = .error .loadAccessFault := by
  have hL := execLOAD_fault s w h3 hr
  simp [CPU.execute, hop, hL]

/-- C10 witness: `lb x1, 0(x0)` (word `0x83`) from the all-zero register
file targets address 0, below `MemoryBaseAddr`, and faults. -/
theorem load_out_of_range_faults_witness :
    CPU.execute sC10 0x83 = .error .loadAccessFault :=
  load_out_of_range_faults sC10 0x83 (by decide) (by decide) (by decide)

end Riscvemu
